import Mathlib

/-!
Verification of the furydotbot python SDK (a thin HTTP client wrapper) against
its natural-language specification.

The development shallowly embeds the source files:
  - fury/models.py       : the Protocol enumeration and its validate classmethod
  - fury/exceptions.py   : FuryAPIError
  - fury/fury-sdk.py     : the FurySDK dispatcher (request, health_check)
  - furySDK/clients.py   : the domain clients (Tokens, Transactions, Analytics,
                           Utilities, Wallets)

Python values flowing over the wire are modelled by an inductive Json type;
Python float amounts are modelled exactly as rationals.  Python-level
behaviours that matter to the embedded code are made explicit:
  - truthiness (`if affiliate_address:` and `error_data or \x7b\x7d`) is the
    function jsonTruthy below, and the truthiness of a requests Response
    object is `response.ok`, i.e. status_code < 400;
  - `response.raise_for_status()` raises an HTTPError exactly for status
    codes in [400, 600), with the message text produced by the requests
    library (httpErrorText below);
  - `response.json()` either returns a decoded Json value or raises; the
    decode outcome is carried on the modelled response as an Option Json,
    together with the decode-error text used when it fails (requests version
    2.27 and later, where the decode error is a RequestException);
  - `error_data.get` on a decoded body that is not a JSON object raises an
    uncaught AttributeError, modelled by PyError.attributeError.

The HTTP transport is an explicit parameter `net : RequestRecord → HttpResponse`
mapping each outbound request to the response the server would give, and every
operation returns the list of requests it issued plus the dispatcher state
after the call, so that request-count and frame claims are statable.
-/

/-- A JSON value (Python object as it appears in request/response bodies).
Numbers are exact rationals, covering the Python ints and floats the SDK
sends. -/
inductive Json where
  | null
  | bool (b : Bool)
  | num (q : ℚ)
  | str (s : String)
  | arr (elems : List Json)
  | obj (members : List (String × Json))

/-- Python truthiness of a JSON-shaped value: None, False, 0, the empty
string, the empty list and the empty dict are falsy, everything else truthy. -/
def jsonTruthy : Json → Bool
  | .null => false
  | .bool b => b
  | .num q => q != 0
  | .str s => s != ""
  | .arr elems => !elems.isEmpty
  | .obj members => !members.isEmpty

/-- Truthiness of a Python Optional[str] argument (`if affiliate_address:`). -/
def optStrTruthy : Option String → Bool
  | none => false
  | some s => s != ""

/-- Truthiness of a Python Optional[int] argument (`if jito_tip_lamports:`). -/
def optIntTruthy : Option Int → Bool
  | none => false
  | some n => n != 0

/-- Python str.lower as the SDK uses it: lowercase every character (the
protocol names are ASCII, where the Python and Unicode lowercasings agree). -/
def pyLower (s : String) : String :=
  ⟨s.data.map Char.toLower⟩

namespace Protocol

/-- Protocol.values from fury/models.py: the six supported protocol names. -/
def values : List String :=
  ["raydium", "jupiter", "pumpfun", "moonshot", "pumpswap", "auto"]

/-- Protocol.validate from fury/models.py: raise ValueError when the
lowercased name is not in the enumeration, otherwise return the lowercased
name.  The raised ValueError is modelled as Except.error carrying the
formatted message. -/
def validate (protocol : String) : Except String String :=
  if pyLower protocol ∉ values then
    .error ("Invalid protocol: " ++ protocol ++ ". Must be one of: " ++
      String.intercalate ", " values)
  else
    .ok (pyLower protocol)

end Protocol

/-- Python str.rstrip with a slash argument: remove every trailing slash
character (used on the base URL in FurySDK.__init__). -/
def rstripSlashes (s : String) : String :=
  ⟨(s.data.reverse.dropWhile (· == '/')).reverse⟩

/-- The modelled outcome of one HTTP exchange, as the embedded code observes
it through the requests library: the status code, the reason phrase, the raw
body text, the result of attempting to decode the body as JSON (none when the
body is not decodable JSON), and the text of the decode error raised in that
case. -/
structure HttpResponse where
  status_code : Nat
  reason : String
  text : String
  jsonBody : Option Json
  decodeErrorText : String

/-- One outbound request as handed to session.request: HTTP method, full URL,
and the json keyword argument (none when no body is sent). -/
structure RequestRecord where
  method : String
  url : String
  body : Option Json

/-- The Python value stored in FuryAPIError.status_code.  The annotation says
Optional[int], but the fallback expression
`getattr(e, "response", None) and e.response.status_code` evaluates the
truthiness of the Response object (which is `response.ok`), so on an error
response the expression short-circuits to the Response object itself. -/
inductive PyStatus where
  | none
  | int (n : Nat)
  | responseObj (r : HttpResponse)

/-- FuryAPIError from fury/exceptions.py.  The message is the Python object
passed to Exception.__init__ (a string in the fallback paths, but whatever
JSON value sits under the message key when taken from a decoded error body). -/
structure FuryAPIError where
  status_code : PyStatus
  message : Json
  error_data : Json

/-- The FuryAPIError constructor: `self.error_data = error_data or \x7b\x7d`
keeps the passed payload only when it is truthy, else stores an empty dict. -/
def FuryAPIError.mk' (status_code : PyStatus) (message : Json)
    (error_data : Option Json) : FuryAPIError :=
  { status_code := status_code
    message := message
    error_data :=
      match error_data with
      | some d => if jsonTruthy d then d else .obj []
      | none => .obj [] }

/-- What escapes from FurySDK.request on failure: either the typed
FuryAPIError the code raises, or the untyped AttributeError that
`error_data.get` raises when the decoded error body is not a dict. -/
inductive PyError where
  | furyAPIError (e : FuryAPIError)
  | attributeError

/-- The message text of the HTTPError raised by response.raise_for_status in
the requests library: 4xx gives a Client Error text, 5xx a Server Error
text. -/
def httpErrorText (status : Nat) (reason url : String) : String :=
  if status < 500 then
    toString status ++ " Client Error: " ++ reason ++ " for url: " ++ url
  else
    toString status ++ " Server Error: " ++ reason ++ " for url: " ++ url

/-- The try/except body of FurySDK.request, given the response the transport
produced for the request sent to `url`:
  - 2xx/3xx with decodable JSON body: return the decoded value;
  - 2xx/3xx with undecodable body: response.json() raises a decode error
    whose response attribute is None, so the final raise runs with
    status_code None and the decode-error text;
  - status in [400, 600): raise_for_status raises, and the handler decodes
    the body.  A decoded dict yields a FuryAPIError with the integer status,
    the dict message entry (defaulting to the HTTPError text) and the full
    body as payload; decoded non-dict JSON makes `error_data.get` raise an
    uncaught AttributeError; an undecodable body falls through to the final
    raise, whose status expression short-circuits to the falsy Response
    object. -/
def handleResponse (url : String) (resp : HttpResponse) : Except PyError Json :=
  if 400 ≤ resp.status_code ∧ resp.status_code < 600 then
    let errText := httpErrorText resp.status_code resp.reason url
    match resp.jsonBody with
    | some (.obj members) =>
        .error (.furyAPIError (FuryAPIError.mk' (.int resp.status_code)
          ((members.lookup "message").getD (.str errText))
          (some (.obj members))))
    | some _ => .error .attributeError
    | none =>
        .error (.furyAPIError (FuryAPIError.mk' (.responseObj resp)
          (.str errText) none))
  else
    match resp.jsonBody with
    | some v => .ok v
    | none =>
        .error (.furyAPIError (FuryAPIError.mk' .none
          (.str resp.decodeErrorText) none))

/-- The dispatcher state: FurySDK.__init__ strips trailing slashes from the
base URL, keeps the api key, and sets the session Authorization header when
the key is truthy. -/
structure FurySDK where
  base_url : String
  api_key : Option String
  authHeader : Option String

/-- FurySDK.__init__ from fury/fury-sdk.py. -/
def FurySDK.init (base_url : String) (api_key : Option String) : FurySDK :=
  { base_url := rstripSlashes base_url
    api_key := api_key
    authHeader :=
      match api_key with
      | some k => if k != "" then some ("Bearer " ++ k) else none
      | none => none }

/-- FurySDK.request: build the URL by concatenating the stored base URL and
the endpoint, send exactly one request through the transport, and handle the
response.  The returned triple is (outcome, requests issued, dispatcher state
after the call); the method body never assigns to self, so the state is
passed through unchanged. -/
def FurySDK.request (sdk : FurySDK) (method endpoint : String)
    (body : Option Json) (net : RequestRecord → HttpResponse) :
    Except PyError Json × List RequestRecord × FurySDK :=
  let url := sdk.base_url ++ endpoint
  let req : RequestRecord := ⟨method, url, body⟩
  (handleResponse url (net req), [req], sdk)

/-- FurySDK.health_check: a GET to /health with no body. -/
def FurySDK.health_check (sdk : FurySDK) (net : RequestRecord → HttpResponse) :
    Except PyError Json × List RequestRecord × FurySDK :=
  sdk.request "GET" "/health" none net

/-- The data dict built by TokensClient.buy: four required fields in insertion
order, then each optional field appended only when the argument is truthy. -/
def buyData (wallet_addresses : List String) (token_address : String)
    (sol_amount : ℚ) (protocol : String)
    (affiliate_address affiliate_fee : Option String)
    (jito_tip_lamports slippage_bps : Option Int) : List (String × Json) :=
  [("walletAddresses", .arr (wallet_addresses.map .str)),
   ("tokenAddress", .str token_address),
   ("solAmount", .num sol_amount),
   ("protocol", .str protocol)]
  ++ (if optStrTruthy affiliate_address then
        [("affiliateAddress", .str (affiliate_address.getD ""))] else [])
  ++ (if optStrTruthy affiliate_fee then
        [("affiliateFee", .str (affiliate_fee.getD ""))] else [])
  ++ (if optIntTruthy jito_tip_lamports then
        [("jitoTipLamports", .num ((jito_tip_lamports.getD 0: Int) : ℚ))] else [])
  ++ (if optIntTruthy slippage_bps then
        [("slippageBps", .num ((slippage_bps.getD 0 : Int) : ℚ))] else [])

/-- TokensClient.buy: build the data dict and POST it to /api/tokens/buy.
Note that the method performs no protocol validation; Protocol.validate is
never invoked. -/
def TokensClient.buy (sdk : FurySDK) (wallet_addresses : List String)
    (token_address : String) (sol_amount : ℚ) (protocol : String)
    (affiliate_address affiliate_fee : Option String)
    (jito_tip_lamports slippage_bps : Option Int)
    (net : RequestRecord → HttpResponse) :
    Except PyError Json × List RequestRecord × FurySDK :=
  sdk.request "POST" "/api/tokens/buy"
    (some (.obj (buyData wallet_addresses token_address sol_amount protocol
      affiliate_address affiliate_fee jito_tip_lamports slippage_bps))) net

/-- The data dict built by TokensClient.sell (percentage instead of
solAmount, same optional handling as buy). -/
def sellData (wallet_addresses : List String) (token_address : String)
    (percentage : Int) (protocol : String)
    (affiliate_address affiliate_fee : Option String)
    (jito_tip_lamports slippage_bps : Option Int) : List (String × Json) :=
  [("walletAddresses", .arr (wallet_addresses.map .str)),
   ("tokenAddress", .str token_address),
   ("percentage", .num (percentage : ℚ)),
   ("protocol", .str protocol)]
  ++ (if optStrTruthy affiliate_address then
        [("affiliateAddress", .str (affiliate_address.getD ""))] else [])
  ++ (if optStrTruthy affiliate_fee then
        [("affiliateFee", .str (affiliate_fee.getD ""))] else [])
  ++ (if optIntTruthy jito_tip_lamports then
        [("jitoTipLamports", .num ((jito_tip_lamports.getD 0 : Int) : ℚ))] else [])
  ++ (if optIntTruthy slippage_bps then
        [("slippageBps", .num ((slippage_bps.getD 0 : Int) : ℚ))] else [])

/-- TokensClient.sell. -/
def TokensClient.sell (sdk : FurySDK) (wallet_addresses : List String)
    (token_address : String) (percentage : Int) (protocol : String)
    (affiliate_address affiliate_fee : Option String)
    (jito_tip_lamports slippage_bps : Option Int)
    (net : RequestRecord → HttpResponse) :
    Except PyError Json × List RequestRecord × FurySDK :=
  sdk.request "POST" "/api/tokens/sell"
    (some (.obj (sellData wallet_addresses token_address percentage protocol
      affiliate_address affiliate_fee jito_tip_lamports slippage_bps))) net

/-- TokensClient.transfer. -/
def TokensClient.transfer (sdk : FurySDK) (sender_public_key receiver
    token_address amount : String) (net : RequestRecord → HttpResponse) :
    Except PyError Json × List RequestRecord × FurySDK :=
  sdk.request "POST" "/api/tokens/transfer"
    (some (.obj [("senderPublicKey", .str sender_public_key),
                 ("receiver", .str receiver),
                 ("tokenAddress", .str token_address),
                 ("amount", .str amount)])) net

/-- TokensClient.create (the config argument is an arbitrary dict, carried as
an opaque Json value). -/
def TokensClient.create (sdk : FurySDK) (wallet_addresses : List String)
    (mint_pubkey : String) (config : Json) (amounts : List ℚ)
    (net : RequestRecord → HttpResponse) :
    Except PyError Json × List RequestRecord × FurySDK :=
  sdk.request "POST" "/api/tokens/create"
    (some (.obj [("walletAddresses", .arr (wallet_addresses.map .str)),
                 ("mintPubkey", .str mint_pubkey),
                 ("config", config),
                 ("amounts", .arr (amounts.map .num))])) net

/-- TokensClient.burn. -/
def TokensClient.burn (sdk : FurySDK) (wallet_public_key token_address
    amount : String) (net : RequestRecord → HttpResponse) :
    Except PyError Json × List RequestRecord × FurySDK :=
  sdk.request "POST" "/api/tokens/burn"
    (some (.obj [("walletPublicKey", .str wallet_public_key),
                 ("tokenAddress", .str token_address),
                 ("amount", .str amount)])) net

/-- TokensClient.cleaner. -/
def TokensClient.cleaner (sdk : FurySDK) (seller_address buyer_address
    token_address : String) (sell_percentage buy_percentage : ℚ)
    (net : RequestRecord → HttpResponse) :
    Except PyError Json × List RequestRecord × FurySDK :=
  sdk.request "POST" "/api/tokens/cleaner"
    (some (.obj [("sellerAddress", .str seller_address),
                 ("buyerAddress", .str buyer_address),
                 ("tokenAddress", .str token_address),
                 ("sellPercentage", .num sell_percentage),
                 ("buyPercentage", .num buy_percentage)])) net

/-- TransactionsClient.send: note useRpc is always included, defaulted or
not. -/
def TransactionsClient.send (sdk : FurySDK) (transactions : List Json)
    (use_rpc : Bool) (net : RequestRecord → HttpResponse) :
    Except PyError Json × List RequestRecord × FurySDK :=
  sdk.request "POST" "/api/transactions/send"
    (some (.obj [("transactions", .arr transactions),
                 ("useRpc", .bool use_rpc)])) net

/-- The data dict built by AnalyticsClient.calculate_pnl: tokenAddress only
when truthy, and an options dict only when include_timestamp is True. -/
def calculatePnlData (addresses : String) (token_address : Option String)
    (include_timestamp : Bool) : List (String × Json) :=
  [("addresses", .str addresses)]
  ++ (if optStrTruthy token_address then
        [("tokenAddress", .str (token_address.getD ""))] else [])
  ++ (if include_timestamp then
        [("options", .obj [("includeTimestamp", .bool true)])] else [])

/-- AnalyticsClient.calculate_pnl. -/
def AnalyticsClient.calculate_pnl (sdk : FurySDK) (addresses : String)
    (token_address : Option String) (include_timestamp : Bool)
    (net : RequestRecord → HttpResponse) :
    Except PyError Json × List RequestRecord × FurySDK :=
  sdk.request "POST" "/api/analytics/pnl"
    (some (.obj (calculatePnlData addresses token_address include_timestamp)))
    net

/-- UtilitiesClient.generate_mint: a GET with no body. -/
def UtilitiesClient.generate_mint (sdk : FurySDK)
    (net : RequestRecord → HttpResponse) :
    Except PyError Json × List RequestRecord × FurySDK :=
  sdk.request "GET" "/api/utilities/generate-mint" none net

/-- WalletsClient.distribute: the recipients list is passed through into the
body unchanged. -/
def WalletsClient.distribute (sdk : FurySDK) (sender : String)
    (recipients : List Json) (net : RequestRecord → HttpResponse) :
    Except PyError Json × List RequestRecord × FurySDK :=
  sdk.request "POST" "/api/wallets/distribute"
    (some (.obj [("sender", .str sender),
                 ("recipients", .arr recipients)])) net

/-- The data dict built by WalletsClient.consolidate: tokenAddress only when
truthy. -/
def consolidateData (source_addresses : List String)
    (receiver_address : String) (percentage : Int)
    (token_address : Option String) : List (String × Json) :=
  [("sourceAddresses", .arr (source_addresses.map .str)),
   ("receiverAddress", .str receiver_address),
   ("percentage", .num (percentage : ℚ))]
  ++ (if optStrTruthy token_address then
        [("tokenAddress", .str (token_address.getD ""))] else [])

/-- WalletsClient.consolidate. -/
def WalletsClient.consolidate (sdk : FurySDK) (source_addresses : List String)
    (receiver_address : String) (percentage : Int)
    (token_address : Option String) (net : RequestRecord → HttpResponse) :
    Except PyError Json × List RequestRecord × FurySDK :=
  sdk.request "POST" "/api/wallets/consolidate"
    (some (.obj (consolidateData source_addresses receiver_address percentage
      token_address))) net

/-- One public SDK entry point together with its arguments: every domain
client method plus the facade health check.  Quantifying over this type
states a property of every method of the SDK surface at every argument
list. -/
inductive ApiCall where
  | buy (wallet_addresses : List String) (token_address : String)
      (sol_amount : ℚ) (protocol : String)
      (affiliate_address affiliate_fee : Option String)
      (jito_tip_lamports slippage_bps : Option Int)
  | sell (wallet_addresses : List String) (token_address : String)
      (percentage : Int) (protocol : String)
      (affiliate_address affiliate_fee : Option String)
      (jito_tip_lamports slippage_bps : Option Int)
  | transfer (sender_public_key receiver token_address amount : String)
  | create (wallet_addresses : List String) (mint_pubkey : String)
      (config : Json) (amounts : List ℚ)
  | burn (wallet_public_key token_address amount : String)
  | cleaner (seller_address buyer_address token_address : String)
      (sell_percentage buy_percentage : ℚ)
  | send (transactions : List Json) (use_rpc : Bool)
  | calculate_pnl (addresses : String) (token_address : Option String)
      (include_timestamp : Bool)
  | generate_mint
  | distribute (sender : String) (recipients : List Json)
  | consolidate (source_addresses : List String) (receiver_address : String)
      (percentage : Int) (token_address : Option String)
  | health_check

/-- Dispatch one SDK method call: the operational semantics of the whole
public surface, returning the outcome, the list of requests issued and the
dispatcher state after the call. -/
def FurySDK.run (sdk : FurySDK) (c : ApiCall)
    (net : RequestRecord → HttpResponse) :
    Except PyError Json × List RequestRecord × FurySDK :=
  match c with
  | .buy ws ta sa p aa af jt sb =>
      TokensClient.buy sdk ws ta sa p aa af jt sb net
  | .sell ws ta pct p aa af jt sb =>
      TokensClient.sell sdk ws ta pct p aa af jt sb net
  | .transfer s r ta a => TokensClient.transfer sdk s r ta a net
  | .create ws mp cfg am => TokensClient.create sdk ws mp cfg am net
  | .burn w ta a => TokensClient.burn sdk w ta a net
  | .cleaner s b ta sp bp => TokensClient.cleaner sdk s b ta sp bp net
  | .send txs rpc => TransactionsClient.send sdk txs rpc net
  | .calculate_pnl a ta ts => AnalyticsClient.calculate_pnl sdk a ta ts net
  | .generate_mint => UtilitiesClient.generate_mint sdk net
  | .distribute s r => WalletsClient.distribute sdk s r net
  | .consolidate src rcv pct ta =>
      WalletsClient.consolidate sdk src rcv pct ta net
  | .health_check => FurySDK.health_check sdk net

/-- The list of keys of the JSON body of a request, empty when there is no
object body. -/
def bodyKeys : Option Json → List String
  | some (.obj members) => members.map Prod.fst
  | _ => []

/-- A transport fixture answering every request with 200 and an empty JSON
object body. -/
def netOk : RequestRecord → HttpResponse :=
  fun _ => ⟨200, "OK", "", some (.obj []), ""⟩

/-- A transport fixture answering every request with status 400 and a JSON
error body carrying only a message entry. -/
def resp400 : HttpResponse :=
  ⟨400, "Bad Request", "", some (.obj [("message", .str "insufficient balance")]), ""⟩

/-- A simulated 500 response whose body is not decodable JSON. -/
def resp500 : HttpResponse :=
  ⟨500, "Internal Server Error", "oops", none,
    "Expecting value: line 1 column 1 (char 0)"⟩

/-- A transport fixture answering every request with status 400 and a body
that decodes to a JSON array (not a dict). -/
def netErrArray : RequestRecord → HttpResponse :=
  fun _ => ⟨400, "Bad Request", "", some (.arr []), ""⟩

/-- C2: for every protocol-name input whose lowercase form is one of the six
supported values, Protocol.validate succeeds and returns the lowercase form;
for every input whose lowercase form is outside those six, it raises. -/
theorem protocol_validate_normalizes (s : String) :
    (pyLower s ∈ Protocol.values → Protocol.validate s = Except.ok (pyLower s)) ∧
    (pyLower s ∉ Protocol.values → (Protocol.validate s).isOk = false) := by
  constructor
  · intro h
    simp [Protocol.validate, h]
  · intro h
    simp [Protocol.validate, h, Except.isOk, Except.toBool]

/-- Witness for C2 at the concrete inputs JUPITER (accepted, normalized) and
invalid (rejected). -/
theorem protocol_validate_normalizes_witness :
    Protocol.validate "JUPITER" = Except.ok "jupiter" ∧
    (Protocol.validate "invalid").isOk = false := by
  constructor
  · have h := (protocol_validate_normalizes "JUPITER").1 (by decide)
    have hl : pyLower "JUPITER" = "jupiter" := by decide
    rwa [hl] at h
  · exact (protocol_validate_normalizes "invalid").2 (by decide)

/-- C1 is false on the code: TokensClient.buy never invokes
Protocol.validate, so calling buy with protocol invalid raises no local
validation error and issues exactly one HTTP request (not zero); against a
200 transport it even returns the decoded response. -/
theorem tokens_buy_invalid_protocol_counterexample :
    (FurySDK.run (FurySDK.init "http://api" none)
      (.buy ["w"] "T" 1 "invalid" none none none none) netOk).2.1.length = 1 ∧
    (FurySDK.run (FurySDK.init "http://api" none)
      (.buy ["w"] "T" 1 "invalid" none none none none) netOk).1 =
      Except.ok (Json.obj []) := by
  exact ⟨rfl, rfl⟩

/-- C1 amended: tokens.buy performs no local protocol validation; with
protocol invalid it issues exactly one POST to /api/tokens/buy whose body
carries protocol invalid unchanged.  Protocol.validate itself does reject the
name, but buy never calls it. -/
theorem tokens_buy_invalid_protocol_amended (sdk : FurySDK)
    (ws : List String) (ta : String) (sa : ℚ)
    (aa af : Option String) (jt sb : Option Int)
    (net : RequestRecord → HttpResponse) :
    (FurySDK.run sdk (.buy ws ta sa "invalid" aa af jt sb) net).2.1 =
      [⟨"POST", sdk.base_url ++ "/api/tokens/buy",
        some (.obj (buyData ws ta sa "invalid" aa af jt sb))⟩] ∧
    (buyData ws ta sa "invalid" aa af jt sb).lookup "protocol" =
      some (.str "invalid") ∧
    (Protocol.validate "invalid").isOk = false := by
  refine ⟨rfl, ?_, by decide⟩
  simp [buyData, List.lookup]

/-- C4: a simulated 400 response whose body decodes to a dict with message
insufficient balance makes the dispatcher raise a FuryAPIError with integer
status 400, that message, and the full decoded body as payload. -/
theorem dispatcher_400_insufficient_balance (sdk : FurySDK)
    (method endpoint : String) (body : Option Json)
    (net : RequestRecord → HttpResponse)
    (h : net ⟨method, sdk.base_url ++ endpoint, body⟩ = resp400) :
    (sdk.request method endpoint body net).1 =
      Except.error (.furyAPIError
        { status_code := .int 400
          message := .str "insufficient balance"
          error_data := .obj [("message", .str "insufficient balance")] }) := by
  simp [FurySDK.request, h, resp400, handleResponse, FuryAPIError.mk',
    jsonTruthy, List.lookup]

/-- Witness for C4 at a concrete dispatcher and endpoint. -/
theorem dispatcher_400_insufficient_balance_witness :
    ((FurySDK.init "http://api" none).request "POST" "/api/tokens/buy" none
        (fun _ => resp400)).1 =
      Except.error (.furyAPIError
        { status_code := .int 400
          message := .str "insufficient balance"
          error_data := .obj [("message", .str "insufficient balance")] }) :=
  dispatcher_400_insufficient_balance (FurySDK.init "http://api" none)
    "POST" "/api/tokens/buy" none (fun _ => resp400) rfl

/-- C3: evaluating the dispatcher at a simulated 500 response with
undecodable body oops shows what the code actually raises: the status_code
field holds the falsy Response object (the and-expression short-circuit), not
the integer 500, and the message is the HTTPError text, not the raw body
text.  The second conjunct records that no FuryAPIError with integer status
500 and the raw body text is raised at this input. -/
theorem dispatcher_500_nonjson_behavior :
    ((FurySDK.init "http://api" none).request "GET" "/x" none
        (fun _ => resp500)).1 =
      Except.error (.furyAPIError
        { status_code := .responseObj resp500
          message := .str "500 Server Error: Internal Server Error for url: http://api/x"
          error_data := .obj [] }) ∧
    (¬ ∃ d, ((FurySDK.init "http://api" none).request "GET" "/x" none
        (fun _ => resp500)).1 =
      Except.error (.furyAPIError
        { status_code := .int 500
          message := .str "oops"
          error_data := d })) := by
  refine ⟨rfl, ?_⟩
  rintro ⟨d, h⟩
  rw [show ((FurySDK.init "http://api" none).request "GET" "/x" none
      (fun _ => resp500)).1 =
    Except.error (.furyAPIError
      { status_code := .responseObj resp500
        message := .str "500 Server Error: Internal Server Error for url: http://api/x"
        error_data := .obj [] }) from rfl] at h
  simp at h

/-- C5 helper: the head of a list after dropping leading slashes is never a
slash. -/
theorem head_dropWhile_slash (l : List Char) :
    (l.dropWhile (· == '/')).head? ≠ some '/' := by
  induction l with
  | nil => simp [List.dropWhile]
  | cons a t ih =>
    by_cases h : a = '/'
    · simpa [List.dropWhile_cons, h] using ih
    · simp [List.dropWhile_cons, h]

/-- C5 helper: the stored base URL never ends in a slash. -/
theorem rstripSlashes_no_trailing (s : String) :
    (rstripSlashes s).data.getLast? ≠ some '/' := by
  unfold rstripSlashes
  rw [List.getLast?_reverse]
  exact head_dropWhile_slash _

/-- C5: for every base URL and every endpoint beginning with a slash, the one
request the dispatcher issues goes to the stored base URL (whose trailing
slashes were stripped at construction, so it never ends in a slash) followed
by exactly the one separator the endpoint contributes. -/
theorem request_url_single_separator (base : String) (api_key : Option String)
    (method endpoint : String) (body : Option Json)
    (net : RequestRecord → HttpResponse) (rest : List Char)
    (h : endpoint.data = '/' :: rest) :
    ((FurySDK.init base api_key).request method endpoint body net).2.1.map
        RequestRecord.url =
      [⟨(rstripSlashes base).data ++ '/' :: rest⟩] ∧
    (rstripSlashes base).data.getLast? ≠ some '/' := by
  refine ⟨?_, rstripSlashes_no_trailing base⟩
  have he : endpoint = ⟨'/' :: rest⟩ := by
    cases endpoint
    cases h
    rfl
  have hx : rstripSlashes base ++ endpoint =
      ⟨(rstripSlashes base).data ++ '/' :: rest⟩ := by
    rw [he]
    generalize rstripSlashes base = rb
    cases rb
    rfl
  show [rstripSlashes base ++ endpoint] =
    [⟨(rstripSlashes base).data ++ '/' :: rest⟩]
  rw [hx]

/-- Witness for C5 at a base URL with a trailing slash and the health
endpoint. -/
theorem request_url_single_separator_witness :
    ((FurySDK.init "https://api.fury.bot/" none).request "GET" "/health" none
        netOk).2.1.map RequestRecord.url =
      [⟨("https://api.fury.bot").data ++ '/' :: ("health").data⟩] ∧
    (rstripSlashes "https://api.fury.bot/").data.getLast? ≠ some '/' := by
  obtain ⟨h1, h2⟩ := request_url_single_separator "https://api.fury.bot/" none
    "GET" "/health" none netOk ("health".data) rfl
  refine ⟨?_, h2⟩
  rw [h1]
  rfl

/-- C6: when the optional arguments are omitted (left at their None/False
defaults), the single outbound body of buy, sell, calculate_pnl and
consolidate contains exactly the required keys — none of the optional wire
field names appears. -/
theorem optional_fields_omitted (sdk : FurySDK)
    (net : RequestRecord → HttpResponse) (ws : List String) (ta : String)
    (sa : ℚ) (p : String) (pct : Int) (addresses rcv : String)
    (src : List String) :
    (FurySDK.run sdk (.buy ws ta sa p none none none none) net).2.1.map
        (fun r => bodyKeys r.body) =
      [["walletAddresses", "tokenAddress", "solAmount", "protocol"]] ∧
    (FurySDK.run sdk (.sell ws ta pct p none none none none) net).2.1.map
        (fun r => bodyKeys r.body) =
      [["walletAddresses", "tokenAddress", "percentage", "protocol"]] ∧
    (FurySDK.run sdk (.calculate_pnl addresses none false) net).2.1.map
        (fun r => bodyKeys r.body) = [["addresses"]] ∧
    (FurySDK.run sdk (.consolidate src rcv pct none) net).2.1.map
        (fun r => bodyKeys r.body) =
      [["sourceAddresses", "receiverAddress", "percentage"]] :=
  ⟨rfl, rfl, rfl, rfl⟩

/-- C7 is false as stated: when an HTTP-error response body decodes to JSON
that is not a dict (here an array), the error handler itself fails and the
untyped AttributeError escapes — the outcome is neither a decoded response
nor a typed SDK/API error.  Exactly one request is still issued. -/
theorem single_request_typed_error_counterexample :
    (FurySDK.run (FurySDK.init "http://api" none) .generate_mint
        netErrArray).1 = Except.error PyError.attributeError ∧
    (¬ ∃ e, (FurySDK.run (FurySDK.init "http://api" none) .generate_mint
        netErrArray).1 = Except.error (.furyAPIError e)) ∧
    (¬ ∃ v, (FurySDK.run (FurySDK.init "http://api" none) .generate_mint
        netErrArray).1 = Except.ok v) ∧
    (FurySDK.run (FurySDK.init "http://api" none) .generate_mint
        netErrArray).2.1.length = 1 := by
  refine ⟨rfl, ?_, ?_, rfl⟩
  · rintro ⟨e, h⟩
    rw [show (FurySDK.run (FurySDK.init "http://api" none) .generate_mint
        netErrArray).1 = Except.error PyError.attributeError from rfl] at h
    simp at h
  · rintro ⟨v, h⟩
    rw [show (FurySDK.run (FurySDK.init "http://api" none) .generate_mint
        netErrArray).1 = Except.error PyError.attributeError from rfl] at h
    exact Except.noConfusion h

/-- C7 amended: every domain-client method (and the health check) issues
exactly one outbound request, and its outcome is exactly the dispatcher
handling of that single request and its response — no retry, no second
request.  The outcome is the decoded JSON on success or one raised error; the
error is the typed FuryAPIError except in the corner recorded by the
counterexample, where the decoded error body is not a dict and the untyped
AttributeError escapes. -/
theorem single_request_per_call (sdk : FurySDK) (c : ApiCall)
    (net : RequestRecord → HttpResponse) :
    (FurySDK.run sdk c net).2.1.length = 1 ∧
    ∃ req, (FurySDK.run sdk c net).2.1 = [req] ∧
      (FurySDK.run sdk c net).1 = handleResponse req.url (net req) := by
  cases c <;> exact ⟨rfl, _, rfl, rfl⟩

/-- C8: wallets.distribute with sender A and one recipient issues exactly one
POST to /api/wallets/distribute whose JSON body is the sender and the
recipients list passed through unchanged. -/
theorem wallets_distribute_request (sdk : FurySDK)
    (net : RequestRecord → HttpResponse) :
    (FurySDK.run sdk (.distribute "A"
        [Json.obj [("address", .str "B"), ("amount", .str "10")]]) net).2.1 =
      [⟨"POST", sdk.base_url ++ "/api/wallets/distribute",
        some (.obj [("sender", .str "A"),
          ("recipients", .arr [Json.obj [("address", .str "B"),
            ("amount", .str "10")]])])⟩] := rfl

/-- C9: neither the dispatcher request operation nor any domain-client method
changes the dispatcher state — the stored base URL, api key and derived
Authorization header are exactly what construction produced. -/
theorem credential_frame (sdk : FurySDK) (method endpoint : String)
    (body : Option Json) (c : ApiCall) (net : RequestRecord → HttpResponse) :
    (sdk.request method endpoint body net).2.2 = sdk ∧
    (FurySDK.run sdk c net).2.2 = sdk := by
  refine ⟨rfl, ?_⟩
  cases c <;> rfl

/-- C10: supplying a falsy value for an optional argument (empty string, zero,
False) produces exactly the same call outcome, request list and state as
omitting it, and in particular the corresponding wire keys are absent. -/
theorem falsy_optionals_same_as_omitted (sdk : FurySDK)
    (net : RequestRecord → HttpResponse) (ws : List String) (ta : String)
    (sa : ℚ) (p : String) (pct : Int) (addresses rcv : String)
    (src : List String) :
    FurySDK.run sdk (.buy ws ta sa p (some "") (some "") (some 0) (some 0)) net =
      FurySDK.run sdk (.buy ws ta sa p none none none none) net ∧
    FurySDK.run sdk (.sell ws ta pct p (some "") (some "") (some 0) (some 0)) net =
      FurySDK.run sdk (.sell ws ta pct p none none none none) net ∧
    FurySDK.run sdk (.calculate_pnl addresses (some "") false) net =
      FurySDK.run sdk (.calculate_pnl addresses none false) net ∧
    (FurySDK.run sdk (.calculate_pnl addresses (some "") false) net).2.1.map
        (fun r => bodyKeys r.body) = [["addresses"]] ∧
    FurySDK.run sdk (.consolidate src rcv pct (some "")) net =
      FurySDK.run sdk (.consolidate src rcv pct none) net :=
  ⟨rfl, rfl, rfl, rfl, rfl⟩
